import Mathlib

/-!
Verification development for the csv-to-json conversion pipeline
(`src/readers/csv_reader.py`, `src/readers/schema_reader.py`,
`src/processors/data_validator.py`, `src/processors/data_transformer.py`,
`src/main.py`).

The embedding is shallow: pandas DataFrames are modelled as lists of named,
dtype-tagged columns of cells; the three incompatible null representations
of the source (pandas `NA`, float `NaN`, Python `None`) are collapsed into
the single constructor `Cell.null`, which is exactly how every piece of the
source observes them (`isna`/`notna`); machine floats are modelled as
rationals.  Stateful objects (`DataValidator.validation_results`) are
modelled by explicit state passing; exceptions by `Except`.
-/

/-- Schema-level logical column types, the `type` values accepted by
`SchemaReader.get_pandas_dtypes` (`schema_reader.py`, lines 76-88). -/
inductive SchemaType where
  | int64
  | float64
  | string
deriving DecidableEq, Repr

/-- The pandas dtype chosen for each schema type by
`SchemaReader.get_pandas_dtypes`: `int64 -> Int64` (nullable integer),
`float64 -> float64`, `string -> string`. -/
def pandasDtype : SchemaType → String
  | .int64 => "Int64"
  | .float64 => "float64"
  | .string => "string"

/-- A single cell of a DataFrame.  `null` stands for every in-memory
missing value (pandas `NA`, float `NaN`, Python `None`): the source only
ever observes missing values through `isna`/`notna`, so they are one tag
here.  Floats are modelled as rationals. -/
inductive Cell where
  | int : Int → Cell
  | float : ℚ → Cell
  | str : String → Cell
  | null : Cell
deriving DecidableEq, Repr

/-- JSON-safe scalar values, the cell values appearing in the written
records. -/
inductive Json where
  | null : Json
  | num : ℚ → Json
  | str : String → Json
  | bool : Bool → Json
deriving DecidableEq, Repr

/-- The explicit `na_values` list passed to `pd.read_csv` in
`CSVReader.read_csv_file` (`csv_reader.py`, line 68). -/
def extraNaValues : List String := ["", "NULL", "null", "None"]

/-- The default pandas NA tokens, active because `read_csv` is called with
`keep_default_na=True` (`csv_reader.py`, line 69). -/
def defaultNaValues : List String :=
  ["", "#N/A", "#N/A N/A", "#NA", "-1.#IND", "-1.#QNAN", "-NaN", "-nan",
   "1.#IND", "1.#QNAN", "<NA>", "N/A", "NA", "NULL", "NaN", "None",
   "n/a", "nan", "null"]

/-- All cell values treated as missing when reading: the explicit
`na_values` together with the pandas defaults. -/
def naValues : List String := extraNaValues ++ defaultNaValues

/-- Parse an unsigned decimal literal (integer part, optional fractional
part) as a rational. -/
def parseUnsignedDecimal (s : String) : Option ℚ :=
  match s.splitOn "." with
  | [a] => (a.toNat?).map (fun n => (n : ℚ))
  | [a, b] =>
      match a.toNat?, b.toNat? with
      | some n, some f => some ((n : ℚ) + (f : ℚ) / ((10 : ℚ) ^ b.length))
      | _, _ => none
  | _ => none

/-- Parse a signed decimal literal as a rational. -/
def parseDecimal (s : String) : Option ℚ :=
  if s.startsWith "-" then (parseUnsignedDecimal (s.drop 1)).map (fun q => -q)
  else if s.startsWith "+" then parseUnsignedDecimal (s.drop 1)
  else parseUnsignedDecimal s

/-- Per-cell semantics of the `pd.read_csv` call in
`CSVReader.read_csv_file` (`csv_reader.py`, lines 63-70): a raw cell that
matches one of the NA tokens becomes missing before any dtype conversion;
otherwise it is parsed according to the column's pandas dtype
(`Int64` nullable integer, `float64`, or `string` pass-through), and a
parse failure raises (modelled as `Except.error`). -/
def coerceCell (dtype : String) (raw : String) : Except String Cell :=
  if raw ∈ naValues then Except.ok Cell.null
  else if dtype = "Int64" then
    match raw.toInt? with
    | some n => Except.ok (Cell.int n)
    | none => Except.error ("cannot convert " ++ raw ++ " to Int64")
  else if dtype = "float64" then
    match parseDecimal raw with
    | some q => Except.ok (Cell.float q)
    | none => Except.error ("cannot convert " ++ raw ++ " to float64")
  else Except.ok (Cell.str raw)

/-- JSON projection of a cell, as performed by
`DataTransformer._convert_to_records` (`data_transformer.py`, lines
118-133): missing values become JSON `null`, numeric scalars become native
numbers via `.item()`, strings pass through. -/
def jsonOfCell : Cell → Json
  | Cell.null => Json.null
  | Cell.int n => Json.num (n : ℚ)
  | Cell.float q => Json.num q
  | Cell.str s => Json.str s

/-- The mutable `results` dictionary built by
`DataValidator.validate_dataframe` (`data_validator.py`, lines 37-45). -/
structure VResults where
  table_name : String
  total_rows : Nat
  valid_rows : Nat
  issues : List String
  warnings : List String
  errors : List String
  data_quality_score : ℚ
deriving DecidableEq, Repr

/-- `DataValidator._calculate_quality_score` (`data_validator.py`, lines
166-181): start from 100.0, subtract 10 per error, 5 per warning and 2 per
issue, and floor the result at 0.0. -/
def calculate_quality_score (results : VResults) : ℚ :=
  let error_count := results.errors.length
  let warning_count := results.warnings.length
  let issue_count := results.issues.length
  let score : ℚ := 100
  let score := score - error_count * 10
  let score := score - warning_count * 5
  let score := score - issue_count * 2
  max 0 score

/-- One column definition of a table schema, as stored in the schema json
consumed by `SchemaReader` (`schema_reader.py`): a column has a `type`, a
`position` and an optional `required` flag. -/
structure ColumnConfig where
  name : String
  type : SchemaType
  position : Nat
  required : Bool
deriving DecidableEq, Repr

/-- A table schema: its column configurations, in schema-file insertion
order (Python dict order). -/
structure TableSchema where
  columns : List ColumnConfig
deriving DecidableEq, Repr

/-- `SchemaReader.get_pandas_dtypes` (`schema_reader.py`, lines 62-91):
column name to pandas dtype, in schema insertion order. -/
def get_pandas_dtypes (s : TableSchema) : List (String × String) :=
  s.columns.map (fun c => (c.name, pandasDtype c.type))

/-- `SchemaReader.get_column_names` (`schema_reader.py`, lines 93-114):
column names sorted by `position` (Python `sorted` is stable, as is the
insertion sort used here). -/
def get_column_names (s : TableSchema) : List String :=
  (List.insertionSort (fun a b => a.position ≤ b.position) s.columns).map (fun c => c.name)

/-- `SchemaReader.get_required_columns` (`schema_reader.py`, lines
116-135): names of the columns whose `required` flag is set, in schema
insertion order. -/
def get_required_columns (s : TableSchema) : List String :=
  (s.columns.filter (fun c => c.required)).map (fun c => c.name)

/-- One pandas DataFrame column: its name, the string form of its dtype
(`str(df[col].dtype)`), and its cells. -/
structure DColumn where
  name : String
  dtype : String
  cells : List Cell
deriving DecidableEq, Repr

/-- A pandas DataFrame, modelled column-wise.  Frames produced by
`read_csv` are rectangular: every column has the same number of cells. -/
structure DataFrame where
  cols : List DColumn
deriving DecidableEq, Repr

/-- `len(df)`: the row count, read off the first column (0 for a frame
with no columns). -/
def DataFrame.nrows (df : DataFrame) : Nat :=
  match df.cols with
  | [] => 0
  | c :: _ => c.cells.length

/-- `df.columns`. -/
def DataFrame.columns (df : DataFrame) : List String :=
  df.cols.map (fun c => c.name)

/-- `df[name]`: the first column of that name, if any. -/
def DataFrame.col? (df : DataFrame) (name : String) : Option DColumn :=
  df.cols.find? (fun c => c.name = name)

/-- The dtype strings selected by
`select_dtypes(include=['int64', 'Int64', 'float64'])`. -/
def numericDtypes : List String := ["int64", "Int64", "float64"]

/-- The dtype strings selected by
`select_dtypes(include=['string', 'object'])`. -/
def stringDtypes : List String := ["string", "object"]

/-- `pd.isna` on a single cell. -/
def cellIsNull : Cell → Bool
  | Cell.null => true
  | _ => false

/-- `df[col].isnull().sum()`: the number of missing cells. -/
def nullCount (cells : List Cell) : Nat :=
  (cells.filter cellIsNull).length

/-- `(df[col] < 0).sum()` counts cells whose comparison with 0 is `True`;
a missing cell compares to `NA`, which `sum` skips. -/
def cellNegative : Cell → Bool
  | Cell.int n => n < 0
  | Cell.float q => q < 0
  | _ => false

/-- `(df[col] == '').sum()`: the number of cells equal to the empty
string (a missing cell compares to `NA`, which `sum` skips). -/
def emptyStringCount (cells : List Cell) : Nat :=
  (cells.filter (fun c => decide (c = Cell.str ""))).length

/-- `s.endswith(suffix)`, computed on the character list (so that it
reduces inside the kernel). -/
def strEndsWith (s suffix : String) : Bool :=
  List.isSuffixOf suffix.data s.data

/-- `s.startswith(p)`, computed on the character list. -/
def strStartsWith (s p : String) : Bool :=
  List.isPrefixOf p.data s.data

/-- Message built at `data_validator.py`, line 116. -/
def requiredNullMsg (name : String) (null_count : Nat) : String :=
  s!"Column {name}: {null_count} null values in required field"

/-- Message built at `data_validator.py`, line 104. -/
def typeIssueMsg (name expected actual : String) : String :=
  s!"Column {name}: expected {expected}, got {actual}"

/-- Message built at `data_validator.py`, line 131. -/
def negativeIdMsg (name : String) (k : Nat) : String :=
  s!"Column {name}: {k} negative ID values"

/-- Message built at `data_validator.py`, line 139. -/
def negativePriceMsg (name : String) (k : Nat) : String :=
  s!"Column {name}: {k} negative price values"

/-- Message built at `data_validator.py`, line 149. -/
def emptyStringMsg (name : String) (k : Nat) : String :=
  s!"Column {name}: {k} empty string values"

/-- `DataValidator._validate_required_columns` (`data_validator.py`,
lines 76-92): compare the schema's column-name set with the frame's; a
non-empty missing set appends one error, a non-empty extra set appends one
warning. -/
def validate_required_columns (schema : TableSchema) (df : DataFrame)
    (results : VResults) : VResults :=
  let expected_columns := get_column_names schema
  let actual_columns := df.columns
  let missing_columns := expected_columns.filter (fun c => decide (c ∉ actual_columns))
  let extra_columns := actual_columns.filter (fun c => decide (c ∉ expected_columns))
  let results :=
    if missing_columns ≠ [] then
      { results with errors :=
          results.errors ++ ["Missing required columns: " ++ toString missing_columns] }
    else results
  if extra_columns ≠ [] then
    { results with warnings :=
        results.warnings ++ ["Extra columns found: " ++ toString extra_columns] }
  else results

/-- `DataValidator._types_compatible` (`data_validator.py`, lines
153-164). -/
def types_compatible (actual_type expected_type : String) : Bool :=
  let expected_compatible :=
    if expected_type = "Int64" then ["int64", "Int64"]
    else if expected_type = "int64" then ["int64", "Int64"]
    else if expected_type = "float64" then ["float64", "float32"]
    else if expected_type = "string" then ["string", "object"]
    else [expected_type]
  expected_compatible.any (fun comp => strStartsWith actual_type comp)

/-- `DataValidator._validate_data_types` (`data_validator.py`, lines
94-106): for every declared column present in the frame, an incompatible
actual dtype appends one issue. -/
def typesStep (df : DataFrame) (results : VResults) (p : String × String) : VResults :=
  match df.col? p.1 with
  | some col =>
      if ¬ types_compatible col.dtype p.2 then
        { results with issues := results.issues ++ [typeIssueMsg p.1 p.2 col.dtype] }
      else results
  | none => results

/-- The loop of `DataValidator._validate_data_types` over the declared
columns. -/
def validate_data_types (schema : TableSchema) (df : DataFrame)
    (results : VResults) : VResults :=
  (get_pandas_dtypes schema).foldl (typesStep df) results

/-- `DataValidator._validate_required_fields` (`data_validator.py`, lines
108-118): for every required column present in the frame, a positive null
count appends one error. -/
def requiredStep (df : DataFrame) (results : VResults) (col_name : String) : VResults :=
  match df.col? col_name with
  | some col =>
      let null_count := nullCount col.cells
      if null_count > 0 then
        { results with errors := results.errors ++ [requiredNullMsg col_name null_count] }
      else results
  | none => results

/-- The loop of `DataValidator._validate_required_fields` over the
required columns. -/
def validate_required_fields (schema : TableSchema) (df : DataFrame)
    (results : VResults) : VResults :=
  (get_required_columns schema).foldl (requiredStep df) results

/-- `DataValidator._validate_data_ranges` (`data_validator.py`, lines
120-151): negative values in numeric `*_id` / `*_price` / `*_subtotal`
columns append issues; a positive empty-string count in a string column
appends one warning. -/
def rangeNumericStep (results : VResults) (col : DColumn) : VResults :=
  if strEndsWith col.name "_id" then
    let negative_ids := (col.cells.filter cellNegative).length
    if negative_ids > 0 then
      { results with issues := results.issues ++ [negativeIdMsg col.name negative_ids] }
    else results
  else if strEndsWith col.name "_price" || strEndsWith col.name "_subtotal" then
    let negative_prices := (col.cells.filter cellNegative).length
    if negative_prices > 0 then
      { results with issues := results.issues ++ [negativePriceMsg col.name negative_prices] }
    else results
  else results

/-- The empty-string loop body of `DataValidator._validate_data_ranges`
(`data_validator.py`, lines 143-151). -/
def rangeStringStep (results : VResults) (col : DColumn) : VResults :=
  let empty_strings := emptyStringCount col.cells
  if empty_strings > 0 then
    { results with warnings := results.warnings ++ [emptyStringMsg col.name empty_strings] }
  else results

/-- The two loops of `DataValidator._validate_data_ranges`: numeric
columns first, string columns second. -/
def validate_data_ranges (df : DataFrame) (results : VResults) : VResults :=
  let numeric_columns := df.cols.filter (fun c => decide (c.dtype ∈ numericDtypes))
  let results := numeric_columns.foldl rangeNumericStep results
  let string_columns := df.cols.filter (fun c => decide (c.dtype ∈ stringDtypes))
  string_columns.foldl rangeStringStep results

/-- `DataValidator._count_valid_rows` (`data_validator.py`, lines
183-198): 0 as soon as the `errors` list is non-empty; otherwise the
number of rows whose every required column (present in the frame) is
non-null, computed through the boolean mask
`valid_mask &= df[col].notna()`. -/
def count_valid_rows (schema : TableSchema) (df : DataFrame)
    (results : VResults) : Nat :=
  if results.errors ≠ [] then 0
  else
    let required_columns := get_required_columns schema
    ((List.range df.nrows).filter (fun i =>
      required_columns.all (fun col_name =>
        match df.col? col_name with
        | some col => ¬ cellIsNull (col.cells.getD i Cell.null)
        | none => true))).length

/-- `DataValidator.validate_dataframe` (`data_validator.py`, lines
24-74): run the four checks in order on a fresh results record, then fill
in the quality score and the valid-row count. -/
def validate_dataframe (schema : TableSchema) (df : DataFrame)
    (table_name : String) : VResults :=
  let results : VResults :=
    { table_name := table_name
      total_rows := df.nrows
      valid_rows := 0
      issues := []
      warnings := []
      errors := []
      data_quality_score := 0 }
  let results := validate_required_columns schema df results
  let results := validate_data_types schema df results
  let results := validate_required_fields schema df results
  let results := validate_data_ranges df results
  let results := { results with data_quality_score := calculate_quality_score results }
  { results with valid_rows := count_valid_rows schema df results }

/-- The per-table state of `DataValidator` (`data_validator.py`, lines
19-22): its `validation_results` dictionary, modelled as an insertion
ordered association list. -/
structure ValidatorState where
  validation_results : List (String × VResults)
deriving DecidableEq, Repr

/-- Python dict assignment `d[k] = v` on an insertion-ordered association
list: overwrite in place when the key exists, append otherwise. -/
def dictSet (l : List (String × VResults)) (k : String) (v : VResults) :
    List (String × VResults) :=
  if l.any (fun p => p.1 = k) then
    l.map (fun p => if p.1 = k then (k, v) else p)
  else l ++ [(k, v)]

/-- `DataValidator.validate_dataframe` observed together with its state
effect: the method computes the result and then stores it under the table
name (`data_validator.py`, line 73) before returning it. -/
def validate_dataframe_run (st : ValidatorState) (schema : TableSchema)
    (df : DataFrame) (table_name : String) : VResults × ValidatorState :=
  let results := validate_dataframe schema df table_name
  (results, ⟨dictSet st.validation_results table_name results⟩)

/-- The summary dictionary of `DataValidator.get_validation_summary`
(`data_validator.py`, lines 200-232). -/
structure ValidationSummary where
  tables_validated : Nat
  overall_quality_score : ℚ
  total_rows : Nat
  total_valid_rows : Nat
  tables_with_errors : Nat
  tables_with_warnings : Nat
deriving DecidableEq, Repr

/-- `DataValidator.get_validation_summary` (`data_validator.py`, lines
200-232): zeros when nothing was validated, otherwise totals and the mean
quality score over the stored results. -/
def get_validation_summary (st : ValidatorState) : ValidationSummary :=
  let l := st.validation_results
  if l = [] then
    { tables_validated := 0
      overall_quality_score := 0
      total_rows := 0
      total_valid_rows := 0
      tables_with_errors := 0
      tables_with_warnings := 0 }
  else
    { tables_validated := l.length
      overall_quality_score := ((l.map (fun p => p.2.data_quality_score)).sum) / l.length
      total_rows := (l.map (fun p => p.2.total_rows)).sum
      total_valid_rows := (l.map (fun p => p.2.valid_rows)).sum
      tables_with_errors := (l.filter (fun p => decide (p.2.errors ≠ []))).length
      tables_with_warnings := (l.filter (fun p => decide (p.2.warnings ≠ []))).length }

/-- One cleaning step of `DataTransformer._clean_dataframe`
(`data_transformer.py`, lines 70-102).  On nullable-integer and float
columns the source replaces missing values by `None`, which is the
identity on `Cell.null`; on string columns it additionally replaces the
empty string by `None`. -/
def cleanColumn (col : DColumn) : DColumn :=
  if col.dtype = "Int64" then col
  else if col.dtype ∈ stringDtypes then
    { col with cells := col.cells.map (fun c => if c = Cell.str "" then Cell.null else c) }
  else col

/-- `DataTransformer._clean_dataframe` applied to a whole frame. -/
def clean_dataframe (df : DataFrame) : DataFrame :=
  ⟨df.cols.map cleanColumn⟩

/-- One output row of `DataTransformer._convert_to_records`
(`data_transformer.py`, lines 118-133): the record for row `i`, one
JSON-safe scalar per column. -/
def rowRecord (df : DataFrame) (i : Nat) : List (String × Json) :=
  df.cols.map (fun col => (col.name, jsonOfCell (col.cells.getD i Cell.null)))

/-- `DataTransformer._convert_to_records` (`data_transformer.py`, lines
104-136): one record per row of the frame. -/
def convert_to_records (df : DataFrame) : List (List (String × Json)) :=
  (List.range df.nrows).map (fun i => rowRecord df i)

/-- Numeric view of a cell, as used by the pandas reductions `min`, `max`
and `mean`, which skip missing values. -/
def cellToRat? : Cell → Option ℚ
  | Cell.int n => some (n : ℚ)
  | Cell.float q => some q
  | _ => none

/-- The `{'min', 'max', 'mean', 'null_count'}` entry built for a numeric
column that is not entirely null (`data_transformer.py`, lines 167-173). -/
def colStats (col : DColumn) : List (String × Json) :=
  match col.cells.filterMap cellToRat? with
  | [] => []
  | v :: vs =>
      [("min", Json.num (vs.foldl min v)),
       ("max", Json.num (vs.foldl max v)),
       ("mean", Json.num ((v :: vs).sum / ((v :: vs).length : ℚ))),
       ("null_count", Json.num ((nullCount col.cells : ℚ)))]

/-- Python dict assignment on the per-column statistics entry. -/
def statSet (l : List (String × Json)) (k : String) (v : Json) :
    List (String × Json) :=
  if l.any (fun p => p.1 = k) then
    l.map (fun p => if p.1 = k then (k, v) else p)
  else l ++ [(k, v)]

/-- The `metadata` dictionary built by `DataTransformer._generate_metadata`
(`data_transformer.py`, lines 138-181); the wall-clock `generated_at`
field is outside the model. -/
structure TableMetadata where
  table_name : String
  record_count : Nat
  column_count : Nat
  columns : List String
  data_types : List (String × String)
  statistics : List (String × List (String × Json))
deriving DecidableEq, Repr

/-- `DataTransformer._generate_metadata` (`data_transformer.py`, lines
138-181): dtype labels per column; `min`/`max`/`mean`/`null_count`
statistics for every numeric column that is not entirely null; then a
second pass that gives every column a statistics entry and sets its
`null_count`. -/
def statsNumericStep (stats : List (String × List (String × Json)))
    (col : DColumn) : List (String × List (String × Json)) :=
  if ¬ col.cells.all cellIsNull then stats ++ [(col.name, colStats col)]
  else stats

/-- The second statistics loop of `DataTransformer._generate_metadata`
(`data_transformer.py`, lines 176-179): give every column an entry and
set its `null_count`. -/
def statsNullCountStep (stats : List (String × List (String × Json)))
    (col : DColumn) : List (String × List (String × Json)) :=
  if stats.any (fun p => p.1 = col.name) then
    stats.map (fun p =>
      if p.1 = col.name then
        (p.1, statSet p.2 "null_count" (Json.num ((nullCount col.cells : ℚ))))
      else p)
  else stats ++ [(col.name, [("null_count", Json.num ((nullCount col.cells : ℚ)))])]

/-- `DataTransformer._generate_metadata` assembled from the two loops. -/
def generate_metadata (df : DataFrame) (table_name : String) : TableMetadata :=
  let statistics :=
    (df.cols.filter (fun c => decide (c.dtype ∈ numericDtypes))).foldl statsNumericStep []
  let statistics := df.cols.foldl statsNullCountStep statistics
  { table_name := table_name
    record_count := df.nrows
    column_count := df.cols.length
    columns := df.columns
    data_types := df.cols.map (fun c => (c.name, c.dtype))
    statistics := statistics }

/-- The `{'metadata': ..., 'data': ...}` structure returned by
`DataTransformer.transform_dataframe` (`data_transformer.py`, lines
26-68). -/
structure TransformedTable where
  metadata : TableMetadata
  data : List (List (String × Json))
deriving DecidableEq, Repr

/-- `DataTransformer.transform_dataframe` (`data_transformer.py`, lines
26-68): clean the frame, convert it to records, and generate metadata
from the cleaned frame. -/
def transform_dataframe (df : DataFrame) (table_name : String) : TransformedTable :=
  let df_clean := clean_dataframe df
  let records := convert_to_records df_clean
  let metadata := generate_metadata df_clean table_name
  { metadata := metadata, data := records }

/-- One per-table entry of the combined metadata `tables` dictionary
(`data_transformer.py`, lines 265-268). -/
structure CombinedTableMeta where
  record_count : Nat
  columns : List String
deriving DecidableEq, Repr

/-- The `metadata` part of the combined dataset (`data_transformer.py`,
lines 247-256); the wall-clock `created_at` field is outside the model. -/
structure CombinedMetadata where
  dataset_name : String
  table_count : Nat
  total_records : Nat
  tables : List (String × CombinedTableMeta)
deriving DecidableEq, Repr

/-- The combined dataset structure (`data_transformer.py`, lines
247-256). -/
structure CombinedDataset where
  metadata : CombinedMetadata
  tables : List (String × List (List (String × Json)))
deriving DecidableEq, Repr

/-- `DataTransformer.create_combined_dataset` (`data_transformer.py`,
lines 235-271): `table_count` is the number of input tables, and the fold
over the (caller-ordered) tables accumulates each table's record list
length into `total_records` while collecting the per-table metadata. -/
def combineStep (combined : CombinedDataset) (p : String × TransformedTable) :
    CombinedDataset :=
  let record_count := p.2.data.length
  { metadata :=
      { combined.metadata with
        total_records := combined.metadata.total_records + record_count
        tables := combined.metadata.tables ++
          [(p.1, { record_count := record_count, columns := p.2.metadata.columns })] }
    tables := combined.tables ++ [(p.1, p.2.data)] }

/-- `DataTransformer.create_combined_dataset` assembled from the loop. -/
def create_combined_dataset
    (transformed_data : List (String × TransformedTable)) : CombinedDataset :=
  let init : CombinedDataset :=
    { metadata :=
        { dataset_name := "retail_db_combined"
          table_count := transformed_data.length
          total_records := 0
          tables := [] }
      tables := [] }
  transformed_data.foldl combineStep init

/-- The run-level `summary` of `CSVToJSONConverter._compile_results`
(`main.py`, lines 208-221). -/
structure RunSummary where
  tables_processed : Nat
  total_rows_read : Nat
  total_rows_transformed : Nat
  files_written : Nat
  combined_file_created : Bool
deriving DecidableEq, Repr

/-- The results structure of `CSVToJSONConverter._compile_results`
(`main.py`, lines 204-237); the timestamp fields are outside the model.
Its `success` field is the literal `True` of line 209. -/
structure RunResults where
  success : Bool
  summary : RunSummary
deriving DecidableEq, Repr

/-- `CSVToJSONConverter.run_conversion` (`main.py`, lines 40-93).
`readResults` gives, per available table in order, the frame produced by
`CSVReader.read_csv_file` or `none` when that read raised (the per-table
exception is swallowed by `read_all_tables`).  `transformOk` is an oracle
marking the tables whose `transform_dataframe` call raises (swallowed by
`transform_all_tables`); writes are modelled as succeeding, the Sink being
an external collaborator.  `_read_csv_data` raises `ValueError` when no
table survived reading, `_transform_data` when no table survived
transformation; both propagate out of `run_conversion` (line 93
re-raises), modelled as `Except.error`. -/
def run_conversion (readResults : List (String × Option DataFrame))
    (transformOk : String → Bool) : Except String RunResults :=
  let raw_data := readResults.filterMap (fun p => p.2.map (fun df => (p.1, df)))
  if raw_data.isEmpty then Except.error "No CSV data was successfully read"
  else
    let transformed_data := (raw_data.filter (fun p => transformOk p.1)).map
      (fun p => (p.1, transform_dataframe p.2 p.1))
    if transformed_data.isEmpty then Except.error "No data was successfully transformed"
    else
      Except.ok
        { success := true
          summary :=
            { tables_processed := raw_data.length
              total_rows_read := (raw_data.map (fun p => p.2.nrows)).sum
              total_rows_transformed := (transformed_data.map (fun p => p.2.data.length)).sum
              files_written := transformed_data.length
              combined_file_created := true } }

/-- Stated from the spec for comparison with `count_valid_rows`: the
number of rows in which every required column (present in the frame) is
non-null. -/
def rowsWithRequiredPresent (schema : TableSchema) (df : DataFrame) : Nat :=
  ((List.range df.nrows).filter (fun i =>
    (get_required_columns schema).all (fun col_name =>
      match df.col? col_name with
      | some col => ¬ cellIsNull (col.cells.getD i Cell.null)
      | none => true))).length

/-- The table schema of Scenario A of the spec:
`id` Integer required position 0, `name` Text required position 1. -/
def schemaA : TableSchema :=
  ⟨[{ name := "id", type := SchemaType.int64, position := 0, required := true },
    { name := "name", type := SchemaType.string, position := 1, required := true }]⟩

/-- The coerced frame of Scenario A: raw rows
`[["1", "Alice"], ["2", ""]]` read under `schemaA`
(the empty string is an NA token, so the second name is missing). -/
def dfA : DataFrame :=
  ⟨[{ name := "id", dtype := "Int64", cells := [Cell.int 1, Cell.int 2] },
    { name := "name", dtype := "string", cells := [Cell.str "Alice", Cell.null] }]⟩

/-- A frame with one float column whose cells are all missing, and one
string column; used against claim C5. -/
def dfAllNull : DataFrame :=
  ⟨[{ name := "x", dtype := "float64", cells := [Cell.null, Cell.null] },
    { name := "note", dtype := "string", cells := [Cell.str "a", Cell.str "b"] }]⟩

/-- A frame with one string column containing an empty-string cell; used
as a concrete input for claim C8. -/
def dfB : DataFrame :=
  ⟨[{ name := "note", dtype := "string", cells := [Cell.str ""] }]⟩

/-- An empty table schema, used with `dfB`. -/
def schemaEmpty : TableSchema := ⟨[]⟩

/-! ### Helper lemmas -/

theorem count_valid_rows_eq (schema : TableSchema) (df : DataFrame) (r : VResults) :
    count_valid_rows schema df r =
      if r.errors = [] then rowsWithRequiredPresent schema df else 0 := by
  unfold count_valid_rows rowsWithRequiredPresent
  by_cases h : r.errors = [] <;> simp [h]

theorem cleanColumn_name (c : DColumn) : (cleanColumn c).name = c.name := by
  unfold cleanColumn; split_ifs <;> rfl

theorem cleanColumn_length (c : DColumn) : (cleanColumn c).cells.length = c.cells.length := by
  unfold cleanColumn; split_ifs <;> simp

theorem clean_nrows (df : DataFrame) : (clean_dataframe df).nrows = df.nrows := by
  rcases df with ⟨cols⟩
  cases cols with
  | nil => rfl
  | cons c cs => simp [clean_dataframe, DataFrame.nrows, cleanColumn_length]

theorem calculate_quality_score_eq (r : VResults) :
    calculate_quality_score r =
      max 0 (100 - (r.errors.length : ℚ) * 10 - (r.warnings.length : ℚ) * 5
        - (r.issues.length : ℚ) * 2) := rfl

theorem validate_dataframe_score (schema : TableSchema) (df : DataFrame) (tn : String) :
    (validate_dataframe schema df tn).data_quality_score =
      calculate_quality_score (validate_dataframe schema df tn) := by
  simp only [validate_dataframe, calculate_quality_score]

theorem combine_fold_total (l : List (String × TransformedTable)) (init : CombinedDataset) :
    (l.foldl combineStep init).metadata.total_records =
      init.metadata.total_records + (l.map (fun p => p.2.data.length)).sum := by
  induction l generalizing init with
  | nil => simp
  | cons p rest ih => simp [ih, combineStep]; ring

theorem combine_fold_count (l : List (String × TransformedTable)) (init : CombinedDataset) :
    (l.foldl combineStep init).metadata.table_count = init.metadata.table_count := by
  induction l generalizing init with
  | nil => rfl
  | cons p rest ih => simp [ih, combineStep]

/-! ### Claims -/

/-- C1: for every logical type (Integer, Float, Text) and every raw cell
value among the four null tokens `""`, `"NULL"`, `"null"`, `"None"`,
coercion yields the null cell, and the transformation projects that null
cell to JSON null — never a distinct empty-string or NaN value. -/
theorem null_tokens_coerce_to_null (t : SchemaType) (tok : String)
    (h : tok ∈ extraNaValues) :
    coerceCell (pandasDtype t) tok = Except.ok Cell.null
      ∧ jsonOfCell Cell.null = Json.null := by
  refine ⟨?_, rfl⟩
  have h' : tok ∈ naValues := by
    unfold naValues; exact List.mem_append_left _ h
  unfold coerceCell
  simp [h']

theorem null_tokens_coerce_to_null_witness :
    "NULL" ∈ extraNaValues ∧
      (coerceCell (pandasDtype SchemaType.int64) "NULL" = Except.ok Cell.null
        ∧ jsonOfCell Cell.null = Json.null) :=
  ⟨by decide, null_tokens_coerce_to_null SchemaType.int64 "NULL" (by decide)⟩

/-- C2: the quality score equals 100 minus 10 per error, 5 per warning
and 2 per issue, floored at 0, and therefore always lies in [0, 100]. -/
theorem quality_score_formula_bounds (results : VResults) :
    calculate_quality_score results =
      max 0 (100 - 10 * (results.errors.length : ℚ)
        - 5 * (results.warnings.length : ℚ) - 2 * (results.issues.length : ℚ))
    ∧ 0 ≤ calculate_quality_score results
    ∧ calculate_quality_score results ≤ 100 := by
  simp only [calculate_quality_score]
  refine ⟨by ring_nf, le_max_left _ _, ?_⟩
  apply max_le (by norm_num)
  have h1 : (0:ℚ) ≤ (results.errors.length : ℚ) * 10 := by positivity
  have h2 : (0:ℚ) ≤ (results.warnings.length : ℚ) * 5 := by positivity
  have h3 : (0:ℚ) ≤ (results.issues.length : ℚ) * 2 := by positivity
  linarith

/-- C3 counterexample: on Scenario A the only error is the
required-field-null error (no structural error), one row is fully
populated, yet the code reports valid_rows = 0 — the required-field-null
error also zeroes the valid-row count. -/
theorem required_null_only_counterexample :
    (validate_dataframe schemaA dfA "orders").errors = [requiredNullMsg "name" 1]
    ∧ rowsWithRequiredPresent schemaA dfA = 1
    ∧ (validate_dataframe schemaA dfA "orders").valid_rows = 0 := by decide

/-- C3 (amended): if the validation result carries any error — structural
or required-field-null alike — then valid_rows = 0; only when the error
list is empty does valid_rows equal the number of rows in which every
required column present in the frame is non-null. -/
theorem valid_rows_from_errors (schema : TableSchema) (df : DataFrame) (tn : String) :
    (validate_dataframe schema df tn).valid_rows =
      if (validate_dataframe schema df tn).errors = [] then
        rowsWithRequiredPresent schema df
      else 0 := by
  simp only [validate_dataframe]
  rw [count_valid_rows_eq]

/-- C4 counterexample: on Scenario A the code returns valid_rows = 0, not
the claimed 1. -/
theorem scenarioA_valid_rows_not_one :
    (validate_dataframe schemaA dfA "orders").valid_rows = 0
    ∧ (validate_dataframe schemaA dfA "orders").valid_rows ≠ 1 := by decide

/-- C4 (amended): on Scenario A validation returns exactly one error (the
required-field-null error on column `name`), no warnings or issues,
quality score 90.0, total_rows = 2, and valid_rows = 0. -/
theorem scenarioA_validation :
    (validate_dataframe schemaA dfA "orders").errors = [requiredNullMsg "name" 1]
    ∧ (validate_dataframe schemaA dfA "orders").warnings = []
    ∧ (validate_dataframe schemaA dfA "orders").issues = []
    ∧ (validate_dataframe schemaA dfA "orders").data_quality_score = 90
    ∧ (validate_dataframe schemaA dfA "orders").total_rows = 2
    ∧ (validate_dataframe schemaA dfA "orders").valid_rows = 0 := by
  refine ⟨by decide, by decide, by decide, ?_, by decide, by decide⟩
  rw [validate_dataframe_score, calculate_quality_score_eq]
  have he : (validate_dataframe schemaA dfA "orders").errors.length = 1 := by decide
  have hw : (validate_dataframe schemaA dfA "orders").warnings.length = 0 := by decide
  have hi : (validate_dataframe schemaA dfA "orders").issues.length = 0 := by decide
  rw [he, hw, hi]
  norm_num

/-- C6: the combined dataset's total_records is the sum of the per-table
record counts and its table_count is the number of tables combined. -/
theorem combined_dataset_totals (l : List (String × TransformedTable)) :
    (create_combined_dataset l).metadata.total_records =
        (l.map (fun p => p.2.data.length)).sum
    ∧ (create_combined_dataset l).metadata.table_count = l.length := by
  constructor
  · simp [create_combined_dataset, combine_fold_total]
  · simp [create_combined_dataset, combine_fold_count]

/-- C9 counterexample: validating a table changes the validator's
observable state — the validation summary differs before and after. -/
theorem validator_state_changes :
    get_validation_summary (validate_dataframe_run ⟨[]⟩ schemaA dfA "orders").2 ≠
      get_validation_summary ⟨[]⟩ := by decide

/-- C9 (amended): the returned validation result is a pure function of
the schema and the table — validating the same table twice returns equal
results and validating one table does not affect the result for another —
but the call does mutate the validator's state: it stores the result
under the table name, which `get_validation_summary` observes. -/
theorem validate_result_pure (st₁ st₂ : ValidatorState) (schema : TableSchema)
    (df : DataFrame) (tn : String) :
    (validate_dataframe_run st₁ schema df tn).1 = (validate_dataframe_run st₂ schema df tn).1
    ∧ (validate_dataframe_run st₁ schema df tn).2.validation_results =
        dictSet st₁.validation_results tn (validate_dataframe schema df tn) :=
  ⟨rfl, rfl⟩

/-- C10: transformation emits exactly one JSON record per input row: the
records list length and metadata.record_count both equal the input row
count. -/
theorem transform_row_count (df : DataFrame) (tn : String) :
    (transform_dataframe df tn).data.length = df.nrows
    ∧ (transform_dataframe df tn).metadata.record_count = df.nrows := by
  constructor
  · simp [transform_dataframe, convert_to_records, clean_nrows]
  · simp [transform_dataframe, generate_metadata, clean_nrows]

/-- C7 counterexample: a run in which zero tables survive reading, and
likewise one in which zero tables survive transformation, does not return
a results structure with success = false — `run_conversion` propagates the
`ValueError` instead (the `success` field of a returned results structure
is never false). -/
theorem run_zero_tables_raises :
    run_conversion [("orders", none)] (fun _ => true) =
      Except.error "No CSV data was successfully read"
    ∧ run_conversion [("orders", some dfA)] (fun _ => false) =
      Except.error "No data was successfully transformed" := ⟨rfl, rfl⟩

/-- C7 (amended): every run that returns a results structure reports
success = true, with counts reduced to the surviving tables
(tables_processed and total_rows_read range over the tables that survived
reading, total_rows_transformed and files_written over those that also
survived transformation); a run in which zero tables survive reading, or
zero survive transformation, raises the corresponding `ValueError` and
returns no results structure — success = false is never produced. -/
theorem run_conversion_success_shape (readResults : List (String × Option DataFrame))
    (transformOk : String → Bool) :
    (∀ r, run_conversion readResults transformOk = Except.ok r → r.success = true)
    ∧ (readResults.filterMap (fun p => p.2.map (fun d => (p.1, d))) = [] →
        run_conversion readResults transformOk =
          Except.error "No CSV data was successfully read")
    ∧ (readResults.filterMap (fun p => p.2.map (fun d => (p.1, d))) ≠ [] →
        (readResults.filterMap (fun p => p.2.map (fun d => (p.1, d)))).filter
            (fun p => transformOk p.1) = [] →
        run_conversion readResults transformOk =
          Except.error "No data was successfully transformed")
    ∧ (∀ t df, (t, some df) ∈ readResults → transformOk t = true →
        ∃ r, run_conversion readResults transformOk = Except.ok r ∧ r.success = true
          ∧ r.summary.tables_processed =
              (readResults.filterMap (fun p => p.2.map (fun d => (p.1, d)))).length
          ∧ r.summary.total_rows_read =
              ((readResults.filterMap (fun p => p.2.map (fun d => (p.1, d)))).map
                  (fun p => p.2.nrows)).sum
          ∧ r.summary.total_rows_transformed =
              (((readResults.filterMap (fun p => p.2.map (fun d => (p.1, d)))).filter
                  (fun p => transformOk p.1)).map
                    (fun p => (transform_dataframe p.2 p.1).data.length)).sum
          ∧ r.summary.files_written =
              ((readResults.filterMap (fun p => p.2.map (fun d => (p.1, d)))).filter
                  (fun p => transformOk p.1)).length) := by
  refine ⟨?_, ?_, ?_, ?_⟩
  · intro r hr
    simp only [run_conversion] at hr
    split at hr
    · exact absurd hr (by simp)
    · split at hr
      · exact absurd hr (by simp)
      · injection hr with h
        rw [← h]
  · intro h
    simp only [run_conversion, h, List.isEmpty_nil, if_true]
  · intro h1 h2
    have hb1 : (readResults.filterMap (fun p => p.2.map (fun d => (p.1, d)))).isEmpty
        = false := List.isEmpty_eq_false.mpr h1
    have hb2 : (((readResults.filterMap (fun p => p.2.map (fun d => (p.1, d)))).filter
        (fun p => transformOk p.1)).map
          (fun p => (p.1, transform_dataframe p.2 p.1))).isEmpty = true := by
      rw [h2]
      rfl
    simp only [run_conversion, hb1, hb2, Bool.false_eq_true, if_false, if_true]
  · intro t df hmem htok
    have hraw : (t, df) ∈ readResults.filterMap (fun p => p.2.map (fun d => (p.1, d))) :=
      List.mem_filterMap.mpr ⟨(t, some df), hmem, rfl⟩
    have htrans : (t, transform_dataframe df t) ∈
        ((readResults.filterMap (fun p => p.2.map (fun d => (p.1, d)))).filter
          (fun p => transformOk p.1)).map (fun p => (p.1, transform_dataframe p.2 p.1)) :=
      List.mem_map.mpr ⟨(t, df), List.mem_filter.mpr ⟨hraw, htok⟩, rfl⟩
    have h1 : (readResults.filterMap (fun p => p.2.map (fun d => (p.1, d)))).isEmpty = false :=
      List.isEmpty_eq_false.mpr (List.ne_nil_of_mem hraw)
    have h2 : (((readResults.filterMap (fun p => p.2.map (fun d => (p.1, d)))).filter
        (fun p => transformOk p.1)).map
          (fun p => (p.1, transform_dataframe p.2 p.1))).isEmpty = false :=
      List.isEmpty_eq_false.mpr (List.ne_nil_of_mem htrans)
    simp only [run_conversion, h1, h2, Bool.false_eq_true, if_false]
    refine ⟨_, rfl, rfl, rfl, rfl, ?_, ?_⟩
    · rw [List.map_map]
      rfl
    · rw [List.length_map]

theorem run_conversion_success_shape_witness :
    (("orders", some dfA) ∈ [("orders", (some dfA : Option DataFrame))]
      ∧ (fun _ : String => true) "orders" = true)
    ∧ (∃ r, run_conversion [("orders", some dfA)] (fun _ => true) = Except.ok r
        ∧ r.success = true
        ∧ r.summary.tables_processed =
            (([("orders", (some dfA : Option DataFrame))]).filterMap
              (fun p => p.2.map (fun d => (p.1, d)))).length
        ∧ r.summary.total_rows_read =
            ((([("orders", (some dfA : Option DataFrame))]).filterMap
                (fun p => p.2.map (fun d => (p.1, d)))).map (fun p => p.2.nrows)).sum
        ∧ r.summary.total_rows_transformed =
            (((([("orders", (some dfA : Option DataFrame))]).filterMap
                  (fun p => p.2.map (fun d => (p.1, d)))).filter
                (fun p => (fun _ : String => true) p.1)).map
                  (fun p => (transform_dataframe p.2 p.1).data.length)).sum
        ∧ r.summary.files_written =
            ((([("orders", (some dfA : Option DataFrame))]).filterMap
                (fun p => p.2.map (fun d => (p.1, d)))).filter
              (fun p => (fun _ : String => true) p.1)).length) :=
  ⟨⟨List.mem_singleton.mpr rfl, rfl⟩,
    (run_conversion_success_shape [("orders", some dfA)] (fun _ => true)).2.2.2 "orders" dfA
      (List.mem_singleton.mpr rfl) rfl⟩

theorem rangeStringStep_warnings (r : VResults) (col : DColumn) :
    ∃ w, (rangeStringStep r col).warnings = r.warnings ++ w := by
  unfold rangeStringStep
  by_cases h : emptyStringCount col.cells > 0
  · exact ⟨[emptyStringMsg col.name (emptyStringCount col.cells)], by simp [h]⟩
  · exact ⟨[], by simp [h]⟩

theorem stringFold_warnings (l : List DColumn) (r : VResults) :
    ∃ w, (l.foldl rangeStringStep r).warnings = r.warnings ++ w := by
  induction l generalizing r with
  | nil => exact ⟨[], by simp⟩
  | cons c cs ih =>
      obtain ⟨w₂, hw₂⟩ := ih (rangeStringStep r c)
      obtain ⟨w₁, hw₁⟩ := rangeStringStep_warnings r c
      exact ⟨w₁ ++ w₂, by simp [List.foldl_cons, hw₂, hw₁]⟩

theorem mem_stringFold_warnings (l : List DColumn) (r : VResults) (col : DColumn)
    (hmem : col ∈ l) (hn : 0 < emptyStringCount col.cells) :
    emptyStringMsg col.name (emptyStringCount col.cells) ∈
      (l.foldl rangeStringStep r).warnings := by
  induction l generalizing r with
  | nil => cases hmem
  | cons c cs ih =>
      rcases List.mem_cons.mp hmem with hcol | hcol
      · subst hcol
        obtain ⟨w, hw⟩ := stringFold_warnings cs (rangeStringStep r col)
        rw [List.foldl_cons, hw]
        apply List.mem_append_left
        unfold rangeStringStep
        simp [hn]
      · exact ih (rangeStringStep r c) hcol

theorem validate_dataframe_warnings (schema : TableSchema) (df : DataFrame) (tn : String) :
    (validate_dataframe schema df tn).warnings =
      ((df.cols.filter (fun c => decide (c.dtype ∈ stringDtypes))).foldl rangeStringStep
        ((df.cols.filter (fun c => decide (c.dtype ∈ numericDtypes))).foldl rangeNumericStep
          (validate_required_fields schema df (validate_data_types schema df
            (validate_required_columns schema df
              { table_name := tn, total_rows := df.nrows, valid_rows := 0, issues := [],
                warnings := [], errors := [], data_quality_score := 0 }))))).warnings := by
  simp only [validate_dataframe, validate_data_ranges]

theorem cleanColumn_string_cells (col : DColumn) (hdt : col.dtype ∈ stringDtypes) :
    (cleanColumn col).cells =
      col.cells.map (fun c => if c = Cell.str "" then Cell.null else c) := by
  unfold cleanColumn
  have h : col.dtype = "string" ∨ col.dtype = "object" := by simpa [stringDtypes] using hdt
  rcases h with h | h <;> simp [h, stringDtypes]

/-- C8: validation and transformation disagree on empty strings by
design — a string-dtype column with n > 0 empty-string cells makes
validation append the "n empty string values" warning (the empty string
is a distinct observable value there), while transformation converts each
empty-string cell to JSON null in the emitted record. -/
theorem empty_string_warning_vs_null (schema : TableSchema) (df : DataFrame)
    (tn : String) (col : DColumn) (i : Nat)
    (hmem : col ∈ df.cols) (hdt : col.dtype ∈ stringDtypes)
    (hn : 0 < emptyStringCount col.cells)
    (hi : i < col.cells.length) (hrow : i < df.nrows)
    (hcell : col.cells.getD i Cell.null = Cell.str "") :
    emptyStringMsg col.name (emptyStringCount col.cells) ∈
        (validate_dataframe schema df tn).warnings
    ∧ (col.name, Json.null) ∈ (convert_to_records (clean_dataframe df)).getD i [] := by
  constructor
  · rw [validate_dataframe_warnings]
    apply mem_stringFold_warnings _ _ col _ hn
    exact List.mem_filter.mpr ⟨hmem, by simpa using hdt⟩
  · have hnr : i < (clean_dataframe df).nrows := by rw [clean_nrows]; exact hrow
    have hrec : (convert_to_records (clean_dataframe df)).getD i [] =
        rowRecord (clean_dataframe df) i := by
      simp [convert_to_records, List.getD_eq_getElem?_getD, List.getElem?_map,
        List.getElem?_range, hnr]
    rw [hrec]
    have hcells : (cleanColumn col).cells.getD i Cell.null = Cell.null := by
      rw [cleanColumn_string_cells col hdt]
      rw [List.getD_eq_getElem?_getD] at hcell ⊢
      rw [List.getElem?_map]
      rw [List.getElem?_eq_getElem hi] at hcell ⊢
      simp at hcell
      simp [hcell]
    unfold rowRecord clean_dataframe
    apply List.mem_map.mpr
    refine ⟨cleanColumn col, List.mem_map_of_mem _ hmem, ?_⟩
    rw [cleanColumn_name, hcells]
    rfl

theorem empty_string_warning_vs_null_witness :
    (({ name := "note", dtype := "string", cells := [Cell.str ""] } : DColumn) ∈ dfB.cols
      ∧ ("string" : String) ∈ stringDtypes
      ∧ 0 < emptyStringCount [Cell.str ""]
      ∧ 0 < ([Cell.str ""] : List Cell).length
      ∧ 0 < dfB.nrows
      ∧ ([Cell.str ""] : List Cell).getD 0 Cell.null = Cell.str "")
    ∧ (emptyStringMsg "note" (emptyStringCount [Cell.str ""])
          ∈ (validate_dataframe schemaEmpty dfB "t").warnings
        ∧ ("note", Json.null) ∈ (convert_to_records (clean_dataframe dfB)).getD 0 []) :=
  ⟨⟨by decide, by decide, by decide, by decide, by decide, by decide⟩,
    empty_string_warning_vs_null schemaEmpty dfB "t"
      { name := "note", dtype := "string", cells := [Cell.str ""] } 0
      (by decide) (by decide) (by decide) (by decide) (by decide) (by decide)⟩


theorem lookup_cons_eq {β : Type} (p : String × β) (ps : List (String × β)) (k : String)
    (hp : p.1 = k) : (p :: ps).lookup k = some p.2 := by
  obtain ⟨a, b⟩ := p
  simp only [] at hp
  subst hp
  simp [List.lookup]

theorem lookup_cons_ne {β : Type} (p : String × β) (ps : List (String × β)) (k : String)
    (hp : ¬ p.1 = k) : (p :: ps).lookup k = ps.lookup k := by
  obtain ⟨a, b⟩ := p
  simp only [] at hp
  have hb : (k == a) = false := by simp [Ne.symm hp]
  simp [List.lookup, hb]

theorem any_key_eq_lookup {β : Type} (l : List (String × β)) (k : String) :
    (l.any (fun p => p.1 = k)) = (l.lookup k).isSome := by
  induction l with
  | nil => rfl
  | cons p ps ih =>
      by_cases hp : p.1 = k
      · rw [lookup_cons_eq p ps k hp]
        simp [hp]
      · rw [lookup_cons_ne p ps k hp]
        simp [hp, ih]

theorem lookup_append_some {β : Type} {l : List (String × β)} (l' : List (String × β))
    {k : String} {v : β} (h : l.lookup k = some v) : (l ++ l').lookup k = some v := by
  induction l with
  | nil => simp [List.lookup] at h
  | cons p ps ih =>
      by_cases hp : p.1 = k
      · rw [lookup_cons_eq p ps k hp] at h
        rw [List.cons_append, lookup_cons_eq p _ k hp]
        exact h
      · rw [lookup_cons_ne p ps k hp] at h
        rw [List.cons_append, lookup_cons_ne p _ k hp]
        exact ih h

theorem lookup_append_none {β : Type} {l : List (String × β)} (l' : List (String × β))
    {k : String} (h : l.lookup k = none) : (l ++ l').lookup k = l'.lookup k := by
  induction l with
  | nil => simp
  | cons p ps ih =>
      by_cases hp : p.1 = k
      · rw [lookup_cons_eq p ps k hp] at h
        cases h
      · rw [lookup_cons_ne p ps k hp] at h
        rw [List.cons_append, lookup_cons_ne p _ k hp]
        exact ih h

theorem statSet_lookup_self (l : List (String × Json)) (k : String) (v : Json) :
    (statSet l k v).lookup k = some v := by
  induction l with
  | nil => simp [statSet, List.lookup]
  | cons p ps ih =>
      by_cases hp : p.1 = k
      · have hany : ((p :: ps).any (fun q => q.1 = k)) = true := by simp [hp]
        have hstep : statSet (p :: ps) k v =
            (p :: ps).map (fun q => if q.1 = k then (k, v) else q) := by
          simp [statSet, hany]
        rw [hstep, List.map_cons, if_pos hp, lookup_cons_eq _ _ k rfl]
      · by_cases ha : (ps.any (fun q => q.1 = k)) = true
        · have hany : ((p :: ps).any (fun q => q.1 = k)) = true := by simp [ha]
          have hstep : statSet (p :: ps) k v =
              (p :: ps).map (fun q => if q.1 = k then (k, v) else q) := by
            simp [statSet, hany]
          have ihm := ih
          rw [show statSet ps k v = ps.map (fun q => if q.1 = k then (k, v) else q) from by
            simp [statSet, ha]] at ihm
          rw [hstep, List.map_cons, if_neg hp, lookup_cons_ne p _ k hp]
          exact ihm
        · have hany : ((p :: ps).any (fun q => q.1 = k)) = false := by simp [hp, ha]
          have hstep : statSet (p :: ps) k v = (p :: ps) ++ [(k, v)] := by
            simp [statSet, hany]
          have ihm := ih
          rw [show statSet ps k v = ps ++ [(k, v)] from by simp [statSet, ha]] at ihm
          rw [hstep, List.cons_append, lookup_cons_ne p _ k hp]
          exact ihm

theorem nullmap_lookup_self (stats : List (String × List (String × Json))) (k : String)
    (x : Json) (e : List (String × Json)) (h : stats.lookup k = some e) :
    (stats.map (fun p => if p.1 = k then (p.1, statSet p.2 "null_count" x) else p)).lookup k
      = some (statSet e "null_count" x) := by
  induction stats with
  | nil => simp [List.lookup] at h
  | cons p ps ih =>
      by_cases hp : p.1 = k
      · rw [lookup_cons_eq p ps k hp] at h
        injection h with h
        rw [List.map_cons, if_pos hp,
          lookup_cons_eq (p.1, statSet p.2 "null_count" x) _ k hp, h]
      · rw [lookup_cons_ne p ps k hp] at h
        rw [List.map_cons, if_neg hp, lookup_cons_ne p _ k hp]
        exact ih h

theorem nullmap_lookup_ne (stats : List (String × List (String × Json))) (k k' : String)
    (x : Json) (hne : ¬ k' = k) :
    (stats.map (fun p => if p.1 = k then (p.1, statSet p.2 "null_count" x) else p)).lookup k'
      = stats.lookup k' := by
  induction stats with
  | nil => rfl
  | cons p ps ih =>
      by_cases hp : p.1 = k
      · have hne2 : ¬ p.1 = k' := fun hh => hne (by rw [← hh, hp])
        rw [List.map_cons, if_pos hp,
          lookup_cons_ne (p.1, statSet p.2 "null_count" x) _ k' hne2,
          lookup_cons_ne p ps k' hne2]
        exact ih
      · rw [List.map_cons, if_neg hp]
        by_cases hk : p.1 = k'
        · rw [lookup_cons_eq p _ k' hk, lookup_cons_eq p ps k' hk]
        · rw [lookup_cons_ne p _ k' hk, lookup_cons_ne p ps k' hk]
          exact ih

theorem statsNullCountStep_lookup_self (stats : List (String × List (String × Json)))
    (col : DColumn) :
    ∃ entry, (statsNullCountStep stats col).lookup col.name = some entry
      ∧ entry.lookup "null_count" = some (Json.num ((nullCount col.cells : ℚ)))
      ∧ (stats.lookup col.name = none →
          entry = [("null_count", Json.num ((nullCount col.cells : ℚ)))]) := by
  cases hl : stats.lookup col.name with
  | none =>
      have hany : (stats.any (fun p => p.1 = col.name)) = false := by
        rw [any_key_eq_lookup, hl]; rfl
      have hstep : statsNullCountStep stats col =
          stats ++ [(col.name, [("null_count", Json.num ((nullCount col.cells : ℚ)))])] := by
        simp [statsNullCountStep, hany]
      refine ⟨[("null_count", Json.num ((nullCount col.cells : ℚ)))], ?_, ?_, fun _ => rfl⟩
      · rw [hstep, lookup_append_none _ hl]
        exact lookup_cons_eq _ [] col.name rfl
      · exact lookup_cons_eq _ [] "null_count" rfl
  | some e =>
      have hany : (stats.any (fun p => p.1 = col.name)) = true := by
        rw [any_key_eq_lookup, hl]; rfl
      have hstep : statsNullCountStep stats col =
          stats.map (fun p =>
            if p.1 = col.name then
              (p.1, statSet p.2 "null_count" (Json.num ((nullCount col.cells : ℚ))))
            else p) := by
        simp [statsNullCountStep, hany]
      refine ⟨statSet e "null_count" (Json.num ((nullCount col.cells : ℚ))), ?_, ?_, ?_⟩
      · rw [hstep]
        exact nullmap_lookup_self stats col.name _ e hl
      · exact statSet_lookup_self e "null_count" _
      · intro hnone
        cases hnone

theorem statsNullCountStep_lookup_ne (stats : List (String × List (String × Json)))
    (col : DColumn) (k : String) (hne : ¬ k = col.name) :
    (statsNullCountStep stats col).lookup k = stats.lookup k := by
  by_cases hany : (stats.any (fun p => p.1 = col.name)) = true
  · have hstep : statsNullCountStep stats col =
        stats.map (fun p =>
          if p.1 = col.name then
            (p.1, statSet p.2 "null_count" (Json.num ((nullCount col.cells : ℚ))))
          else p) := by
      simp [statsNullCountStep, hany]
    rw [hstep]
    exact nullmap_lookup_ne stats col.name k _ hne
  · have hany' : (stats.any (fun p => p.1 = col.name)) = false := by
      simpa only [Bool.not_eq_true] using hany
    have hstep : statsNullCountStep stats col =
        stats ++ [(col.name, [("null_count", Json.num ((nullCount col.cells : ℚ)))])] := by
      simp [statsNullCountStep, hany']
    rw [hstep]
    cases hl : stats.lookup k with
    | some v => rw [lookup_append_some _ hl]
    | none =>
        rw [lookup_append_none _ hl,
          lookup_cons_ne (col.name, [("null_count", Json.num ((nullCount col.cells : ℚ)))]) []
            k (fun hh => hne hh.symm)]
        rfl

theorem foldl_nullcount_preserve (cs : List DColumn)
    (init : List (String × List (String × Json))) (k : String)
    (hk : k ∉ cs.map DColumn.name) :
    (cs.foldl statsNullCountStep init).lookup k = init.lookup k := by
  induction cs generalizing init with
  | nil => rfl
  | cons c rest ih =>
      have h1 : ¬ k = c.name := fun h => hk (by simp [h])
      have h2 : k ∉ rest.map DColumn.name := fun h => hk (by simp [h])
      rw [List.foldl_cons, ih (statsNullCountStep init c) h2,
        statsNullCountStep_lookup_ne _ _ _ h1]

theorem foldl_nullcount_lookup (cs : List DColumn)
    (init : List (String × List (String × Json)))
    (hnodup : (cs.map DColumn.name).Nodup) (col : DColumn) (hc : col ∈ cs) :
    ∃ entry, (cs.foldl statsNullCountStep init).lookup col.name = some entry
      ∧ entry.lookup "null_count" = some (Json.num ((nullCount col.cells : ℚ)))
      ∧ (init.lookup col.name = none →
          entry = [("null_count", Json.num ((nullCount col.cells : ℚ)))]) := by
  induction cs generalizing init with
  | nil => cases hc
  | cons c rest ih =>
      rcases List.mem_cons.mp hc with hcol | hcol
      · subst hcol
        have hnotin : col.name ∉ rest.map DColumn.name := (List.nodup_cons.mp hnodup).1
        obtain ⟨entry, he1, he2, he3⟩ := statsNullCountStep_lookup_self init col
        refine ⟨entry, ?_, he2, he3⟩
        rw [List.foldl_cons, foldl_nullcount_preserve rest _ col.name hnotin]
        exact he1
      · have hnd := List.nodup_cons.mp hnodup
        have hne : ¬ col.name = c.name := by
          intro he
          exact hnd.1 (he ▸ List.mem_map_of_mem DColumn.name hcol)
        obtain ⟨entry, he1, he2, he3⟩ := ih (statsNullCountStep init c) hnd.2 hcol
        refine ⟨entry, ?_, he2, ?_⟩
        · rw [List.foldl_cons]
          exact he1
        · intro hnone
          exact he3 (by rw [statsNullCountStep_lookup_ne _ _ _ hne]; exact hnone)

theorem foldl_statsNumericStep_eq (l : List DColumn)
    (init : List (String × List (String × Json))) :
    l.foldl statsNumericStep init =
      init ++ (l.filter (fun c => decide (¬ c.cells.all cellIsNull))).map
        (fun c => (c.name, colStats c)) := by
  induction l generalizing init with
  | nil => simp
  | cons c cs ih =>
      by_cases h : c.cells.all cellIsNull = true
      · have hstep : statsNumericStep init c = init := by simp [statsNumericStep, h]
        have hfilter : (c :: cs).filter (fun c => decide (¬ c.cells.all cellIsNull = true)) =
            cs.filter (fun c => decide (¬ c.cells.all cellIsNull = true)) := by
          rw [List.filter_cons]
          simp [h]
        rw [List.foldl_cons, hstep, ih init, hfilter]
      · have hstep : statsNumericStep init c = init ++ [(c.name, colStats c)] := by
          simp [statsNumericStep, h]
        have hfilter : (c :: cs).filter (fun c => decide (¬ c.cells.all cellIsNull = true)) =
            c :: cs.filter (fun c => decide (¬ c.cells.all cellIsNull = true)) := by
          rw [List.filter_cons]
          simp [h]
        rw [List.foldl_cons, hstep, ih (init ++ [(c.name, colStats c)]), hfilter,
          List.map_cons, List.append_assoc, List.singleton_append]

theorem lookup_keyed_map_none (l : List DColumn) (k : String)
    (hk : ∀ c ∈ l, ¬ c.name = k) :
    (l.map (fun c => (c.name, colStats c))).lookup k = none := by
  induction l with
  | nil => rfl
  | cons c cs ih =>
      rw [List.map_cons, lookup_cons_ne (c.name, colStats c) _ k (hk c (by simp))]
      exact ih (fun c' hc' => hk c' (by simp [hc']))

/-- C5 counterexample: for a table whose float column `x` is entirely
null, the metadata statistics entry for `x` carries only the key
`null_count` — the min, max and mean fields are omitted, not set to
null. -/
theorem allnull_statistics_counterexample :
    ((generate_metadata dfAllNull "t").statistics.lookup "x").map
        (fun e => e.map Prod.fst) = some ["null_count"] := by decide

/-- C5 (amended): every column of a transformed table has a metadata
statistics entry whose null_count equals its number of missing cells
(the query does not fail); for a column that is entirely null the entry
consists of null_count alone — min, max and mean are omitted rather than
set to null. -/
theorem metadata_statistics_nullcount (df : DataFrame) (tn : String)
    (hnodup : (df.cols.map DColumn.name).Nodup)
    (col : DColumn) (hc : col ∈ df.cols) :
    ∃ entry, (generate_metadata df tn).statistics.lookup col.name = some entry
      ∧ entry.lookup "null_count" = some (Json.num ((nullCount col.cells : ℚ)))
      ∧ (col.cells.all cellIsNull = true →
          entry = [("null_count", Json.num ((nullCount col.cells : ℚ)))]) := by
  have hstats : (generate_metadata df tn).statistics =
      df.cols.foldl statsNullCountStep
        ((df.cols.filter (fun c => decide (c.dtype ∈ numericDtypes))).foldl
          statsNumericStep []) := by
    simp only [generate_metadata]
  rw [hstats]
  obtain ⟨entry, h1, h2, h3⟩ := foldl_nullcount_lookup df.cols _ hnodup col hc
  refine ⟨entry, h1, h2, fun hall => h3 ?_⟩
  rw [foldl_statsNumericStep_eq, List.nil_append]
  apply lookup_keyed_map_none
  intro c' hc' he
  have hmemc : c' ∈ df.cols :=
    List.mem_of_mem_filter (List.mem_of_mem_filter hc')
  have hnotnull : ¬ c'.cells.all cellIsNull = true := by
    have h := (List.mem_filter.mp hc').2
    simpa using h
  have hceq : c' = col := List.inj_on_of_nodup_map hnodup hmemc hc he
  exact hnotnull (by rw [hceq]; exact hall)

theorem metadata_statistics_nullcount_witness :
    ((dfAllNull.cols.map DColumn.name).Nodup
      ∧ ({ name := "x", dtype := "float64", cells := [Cell.null, Cell.null] } : DColumn)
          ∈ dfAllNull.cols)
    ∧ (∃ entry, (generate_metadata dfAllNull "t").statistics.lookup "x" = some entry
        ∧ entry.lookup "null_count" =
            some (Json.num ((nullCount [Cell.null, Cell.null] : ℚ)))
        ∧ (([Cell.null, Cell.null] : List Cell).all cellIsNull = true →
            entry = [("null_count", Json.num ((nullCount [Cell.null, Cell.null] : ℚ)))])) :=
  ⟨⟨by decide, by decide⟩,
    metadata_statistics_nullcount dfAllNull "t" (by decide)
      { name := "x", dtype := "float64", cells := [Cell.null, Cell.null] } (by decide)⟩
